import Mathlib

/-!
Verification of `examples/mixed_project/script.py`.

The script defines a pure function `greet` and an entry point `main` that
prints three lines to standard output.  We embed the script shallowly:

* `greet` becomes a Lean function on `String` (the f-string
  `f"Hello, {name}!"` is the concatenation of three pieces);
* the output stream becomes an explicit state, a `List String` of the
  lines printed so far, with each `print(...)` appending one line;
* the list comprehension `[i * 2 for i in range(5)]` becomes a `map`
  over `List.range 5`, producing Python integers modelled as `Int`;
* Python's textual rendering `str(list)` of a list of integers becomes
  `pyListRepr` (bracketed, comma-and-space separated).

All definitions are computable, so each concrete claim can be checked by
evaluation.
-/

namespace Script

/-- `def greet(name): return f"Hello, {name}!"` -/
def greet (name : String) : String :=
  "Hello, " ++ name ++ "!"

/-- Python functions can in principle raise; we embed `greet` into
`Except String String` to record that its body contains no failing
operation: an f-string over an already-bound variable always succeeds,
so the embedding always returns `ok`. -/
def greetE (name : String) : Except String String :=
  Except.ok (greet name)

/-- The body of `greet` in the same state-passing form as `main`:
it contains no `print`, so the output stream passes through unchanged. -/
def greetProc (name : String) (out : List String) : String × List String :=
  ("Hello, " ++ name ++ "!", out)

/-- The list comprehension `[i * 2 for i in range(5)]` from `main`
(the Sequence Generator of the specification). -/
def sequenceGen : List Int :=
  (List.range 5).map fun i => (i : Int) * 2

/-- Python's `str` on an integer (as it appears for the values in this
program and for any `Int`): decimal digits, minus sign for negatives. -/
def pyIntRepr (n : Int) : String :=
  toString n

/-- Python's `str` on a list of integers: `[a, b, ..., z]`. -/
def pyListRepr (xs : List Int) : String :=
  "[" ++ String.intercalate ", " (xs.map pyIntRepr) ++ "]"

/-- `print(s)`: append one line to the output stream. -/
def printLine (s : String) (out : List String) : List String :=
  out ++ [s]

/-- `def main(): ...` — the entry point, as a transformation of the
output stream.  It is a total Lean function, so every run terminates
normally. -/
def main (out : List String) : List String :=
  let out := printLine "Hello from Python!" out
  let out := printLine (greet "World") out
  let numbers := sequenceGen
  printLine ("Numbers: " ++ pyListRepr numbers) out

/-- `main` generalised over the literal argument `"World"` given to
`greet`, returning both the output stream and the `numbers` list it
computed; used to state that the numbers list does not depend on the
name passed to the Greeting Builder. -/
def mainWith (name : String) (out : List String) : List String × List Int :=
  let out := printLine "Hello from Python!" out
  let out := printLine (greet name) out
  let numbers := sequenceGen
  (printLine ("Numbers: " ++ pyListRepr numbers) out, numbers)

/-- The three lines the specification says a run appends to standard
output. -/
def expectedLines : List String :=
  ["Hello from Python!", "Hello, World!", "Numbers: [0, 2, 4, 6, 8]"]

end Script

namespace Script

/-- A run of `main` appends exactly the three expected lines to whatever
output stream it starts from. -/
theorem main_eq_append (out : List String) :
    main out = out ++ expectedLines := by
  simp only [main, printLine, List.append_assoc]
  rfl

/-- The generalised entry point at `"World"` agrees with `main`, and its
numbers component is `sequenceGen`. -/
theorem mainWith_spec (name : String) (out : List String) :
    (mainWith "World" out).1 = main out ∧ (mainWith name out).2 = sequenceGen := by
  constructor <;> rfl

/-- C1: for every character-sequence input `name`, `greet name` is
exactly `"Hello, " ++ name ++ "!"`. -/
theorem c1_greet_formula (name : String) :
    greet name = "Hello, " ++ name ++ "!" := rfl

/-- C2: the Sequence Generator always returns exactly the 5-element
sequence `[0, 2, 4, 6, 8]`, and the element at every position
`i < 5` is `i * 2`.  (`sequenceGen` is a constant of the embedding, so
the result is the same however many times it is read.) -/
theorem c2_sequence_gen :
    sequenceGen = [0, 2, 4, 6, 8] ∧
      ∀ i : Nat, i < 5 → sequenceGen.getD i 0 = (i : Int) * 2 := by
  constructor
  · rfl
  · decide

/-- Witness for C2 at the concrete position `i = 3`. -/
theorem c2_sequence_gen_witness :
    Script.sequenceGen.getD 3 0 = (3 : Int) * 2 :=
  c2_sequence_gen.2 3 (by decide)

/-- C3: a run of `main` on the empty output stream produces exactly the
three lines `"Hello from Python!"`, `"Hello, World!"`,
`"Numbers: [0, 2, 4, 6, 8]"`, in that order.  `main` is a total Lean
function, so the run terminates normally. -/
theorem c3_main_output :
    main [] = ["Hello from Python!", "Hello, World!", "Numbers: [0, 2, 4, 6, 8]"] :=
  rfl

/-- C4: `greet` is deterministic — equal inputs give equal results — and
its state-passing embedding `greetProc` returns the output stream
unchanged while computing exactly `greet name` (no side effects). -/
theorem c4_greet_pure :
    (∀ a b : String, a = b → greet a = greet b) ∧
      ∀ (name : String) (out : List String),
        (greetProc name out).1 = greet name ∧ (greetProc name out).2 = out := by
  exact ⟨fun a b h => h ▸ rfl, fun name out => ⟨rfl, rfl⟩⟩

/-- Witness for C4 at the concrete input `"World"` with a one-line
output stream. -/
theorem c4_greet_pure_witness :
    greet "World" = greet "World" ∧
      (greetProc "World" ["x"]).1 = greet "World" ∧
        (greetProc "World" ["x"]).2 = ["x"] :=
  ⟨c4_greet_pure.1 "World" "World" rfl, c4_greet_pure.2 "World" ["x"]⟩

/-- C5: the `Except`-embedding of `greet` succeeds on every input with a
well-formed greeting (its body has no failing operation), and the empty
name gives `"Hello, !"`. -/
theorem c5_greet_total :
    (∀ name : String, greetE name = Except.ok ("Hello, " ++ name ++ "!")) ∧
      greet "" = "Hello, !" :=
  ⟨fun _ => rfl, rfl⟩

/-- C6: every run of `main` appends the same three lines to the stream
it starts from, so two consecutive runs produce two identical copies of
the three-line output and the second run's contribution does not depend
on the first having occurred. -/
theorem c6_main_idempotent :
    (∀ out : List String, main out = out ++ expectedLines) ∧
      main (main []) = expectedLines ++ expectedLines := by
  refine ⟨main_eq_append, ?_⟩
  rw [main_eq_append, main_eq_append, List.nil_append]

/-- C7: the numbers list computed by the (generalised) entry point has
length exactly 5, for every name passed to the Greeting Builder and
every starting output stream, and it is the very same list as for the
original name `"World"`. -/
theorem c7_numbers_length_independent :
    ∀ (name : String) (out : List String),
      (mainWith name out).2.length = 5 ∧
        (mainWith name out).2 = (mainWith "World" out).2 ∧
          (mainWith "World" out).1 = main out := by
  intro name out
  exact ⟨rfl, rfl, (mainWith_spec name out).1⟩

/-- C8: the printed lines are in program order in every run: the stream
after a run is the starting stream followed by the banner, the greeting
and the numbers line, in that order; concretely, in `main []` the banner
has a strictly smaller index than the greeting, which has a strictly
smaller index than the numbers line. -/
theorem c8_output_order :
    (∀ out : List String,
        main out =
          out ++ ["Hello from Python!", greet "World", "Numbers: " ++ pyListRepr sequenceGen]) ∧
      (main []).indexOf "Hello from Python!" < (main []).indexOf (greet "World") ∧
        (main []).indexOf (greet "World") <
          (main []).indexOf ("Numbers: " ++ pyListRepr sequenceGen) := by
  refine ⟨fun out => main_eq_append out, ?_, ?_⟩ <;> decide

/-- C9: `greet` is injective — equal greetings come from equal names —
and the greeting is always exactly 8 characters longer than the name. -/
theorem c9_greet_injective :
    (∀ a b : String, greet a = greet b → a = b) ∧
      ∀ name : String, (greet name).length = name.length + 8 := by
  constructor
  · intro a b h
    have hd : ("Hello, ".data ++ a.data) ++ "!".data
        = ("Hello, ".data ++ b.data) ++ "!".data := by
      have := congrArg String.data h
      simpa [greet, String.data_append, List.append_assoc] using this
    exact String.ext (List.append_cancel_left (List.append_cancel_right hd))
  · intro name
    have h1 : ("Hello, " : String).length = 7 := rfl
    have h2 : ("!" : String).length = 1 := rfl
    simp only [greet, String.length_append, h1, h2]
    omega

/-- Witness for C9 at the concrete input `"ab"`. -/
theorem c9_greet_injective_witness :
    ("ab" : String) = "ab" ∧ (greet "ab").length = 10 :=
  ⟨c9_greet_injective.1 "ab" "ab" rfl, c9_greet_injective.2 "ab"⟩

/-- C10: in the numbers list, each element after the first exceeds its
predecessor by exactly 2, and every element is even. -/
theorem c10_numbers_even_step :
    (∀ j : Nat, j + 1 < sequenceGen.length →
        sequenceGen.getD (j + 1) 0 = sequenceGen.getD j 0 + 2) ∧
      ∀ j : Nat, j < sequenceGen.length → sequenceGen.getD j 0 % 2 = 0 := by
  have hlen : sequenceGen.length = 5 := rfl
  constructor
  · intro j h
    rw [hlen] at h
    have hj : j < 4 := by omega
    interval_cases j <;> rfl
  · intro j h
    rw [hlen] at h
    interval_cases j <;> rfl

/-- Witness for C10 at the concrete adjacent pair `(2, 3)`. -/
theorem c10_numbers_even_step_witness :
    sequenceGen.getD 3 0 = sequenceGen.getD 2 0 + 2 ∧
      sequenceGen.getD 2 0 % 2 = 0 :=
  ⟨c10_numbers_even_step.1 2 (by decide), c10_numbers_even_step.2 2 (by decide)⟩

end Script
